import Mathlib

/-!
Shallow embedding of `src/bot.py` (SiliconeHeartMonitorSuite): a host
monitoring bot that samples machine vitals, answers an on-demand status
command, and sends threshold alerts through a chat transport.

Numbers are modelled as exact rationals (`ℚ`): the Python code compares
metric values with `>` and tests truthiness (`if x:`), both of which agree
with the rational order for the values involved.  Numeric rendering in
messages is modelled canonically: an integer-valued reading renders as its
integer digits (as Python renders `int` values such as the GPU temperature).
`None` results of probes are modelled as `Option.none`; a raised Python
exception is modelled as `Except.error`.
-/

namespace Bot

/-- The five monitored metric kinds (spec section 3, "Reading.kind"). -/
inductive Kind where
  | cpu_usage
  | cpu_temperature
  | gpu_temperature
  | memory_usage
  | gpu_memory_usage
deriving DecidableEq

/-- Configured numeric limits, one per metric kind: the `thresholds`
mapping read from the config and passed to `monitor` as `context.job.data`.
All five keys are present (the code indexes all five). -/
structure Thresholds where
  cpu_usage : ℚ
  cpu_temperature : ℚ
  gpu_temperature : ℚ
  memory_usage : ℚ
  gpu_memory_usage : ℚ
deriving DecidableEq

/-- The tuple returned by `get_state` (bot.py lines 100-106):
`get_cpu_usage` and `get_memory_usage` return plain floats and are never
`None`; `get_cpu_temperature`, `get_gpu_temperature` and
`get_gpu_memory_usage` return a value or `None`. -/
structure Snapshot where
  cpu_usage : ℚ
  cpu_temp : Option ℚ
  gpu_temp : Option ℚ
  memory_usage : ℚ
  gpu_memory_usage : Option ℚ
deriving DecidableEq

/-- The configured limit for a metric kind (`thresholds[...]` lookups in
`monitor`, bot.py lines 140-148). -/
def limitOf (t : Thresholds) : Kind → ℚ
  | .cpu_usage => t.cpu_usage
  | .cpu_temperature => t.cpu_temperature
  | .gpu_temperature => t.gpu_temperature
  | .memory_usage => t.memory_usage
  | .gpu_memory_usage => t.gpu_memory_usage

/-- The reading a snapshot holds for a metric kind; `cpu_usage` and
`memory_usage` are always available. -/
def valueOf (s : Snapshot) : Kind → Option ℚ
  | .cpu_usage => some s.cpu_usage
  | .cpu_temperature => s.cpu_temp
  | .gpu_temperature => s.gpu_temp
  | .memory_usage => s.memory_usage
  | .gpu_memory_usage => s.gpu_memory_usage

/-- Canonical rendering of an exact numeric value inside a message
(the interpolation of a number into an f-string).  Integer values render
as their digits; non-integer values render as numerator/denominator. -/
def pyStr (q : ℚ) : String :=
  if q.den = 1 then toString q.num else toString q.num ++ "/" ++ toString q.den

/-- The five alert guards of `monitor` (bot.py lines 140-148), one per
metric kind, in the code:

* `cpu_usage > thresholds["cpu_usage"]` — no availability test;
* `cpu_temp and cpu_temp > thresholds["cpu_temperature"]` — Python
  truthiness: `None` and `0` are both falsy, so the comparison runs only
  for an available, nonzero reading;
* `gpu_temp and gpu_temp > thresholds["gpu_temperature"]` — same;
* `memory_usage > thresholds["memory_usage"]` — no availability test;
* `gpu_memory_usage and gpu_memory_usage > thresholds["gpu_memory_usage"]`
  — same truthiness guard. -/
def breachesKind (k : Kind) (s : Snapshot) (t : Thresholds) : Bool :=
  match k with
  | .cpu_usage => decide (s.cpu_usage > t.cpu_usage)
  | .cpu_temperature =>
      match s.cpu_temp with
      | some v => decide (v ≠ 0) && decide (v > t.cpu_temperature)
      | none => false
  | .gpu_temperature =>
      match s.gpu_temp with
      | some v => decide (v ≠ 0) && decide (v > t.gpu_temperature)
      | none => false
  | .memory_usage => decide (s.memory_usage > t.memory_usage)
  | .gpu_memory_usage =>
      match s.gpu_memory_usage with
      | some v => decide (v ≠ 0) && decide (v > t.gpu_memory_usage)
      | none => false

/-- The text of the alert line for a metric kind, without the newline
terminator (bot.py lines 141-149). -/
def lineTextAt (s : Snapshot) : Kind → String
  | .cpu_usage => "High CPU usage detected: " ++ pyStr s.cpu_usage ++ "%"
  | .cpu_temperature =>
      "High CPU temperature detected: " ++ pyStr (s.cpu_temp.getD 0) ++ "°C"
  | .gpu_temperature =>
      "High GPU temperature detected: " ++ pyStr (s.gpu_temp.getD 0) ++ "°C"
  | .memory_usage => "High memory usage detected: " ++ pyStr s.memory_usage ++ "%"
  | .gpu_memory_usage =>
      "High GPU memory usage detected: " ++ pyStr (s.gpu_memory_usage.getD 0) ++ "%"

/-- The exact chunk `monitor` appends to `alert_message` for a metric kind:
the first four lines carry a trailing newline in the f-string, the
`gpu_memory_usage` line does not (bot.py line 149). -/
def pieceAt (s : Snapshot) (k : Kind) : String :=
  match k with
  | .gpu_memory_usage => lineTextAt s .gpu_memory_usage
  | _ => lineTextAt s k ++ "\n"

/-- The order in which `monitor` checks the metric kinds
(bot.py lines 140-149, top to bottom). -/
def kindOrder : List Kind :=
  [.cpu_usage, .cpu_temperature, .gpu_temperature, .memory_usage, .gpu_memory_usage]

/-- The `alert_message` string built by `monitor` (bot.py lines 137-149):
starts empty, and each of the five guards appends its chunk in program
order. -/
def alert_message (s : Snapshot) (t : Thresholds) : String :=
  (bif breachesKind .cpu_usage s t then lineTextAt s .cpu_usage ++ "\n" else "")
  ++ (bif breachesKind .cpu_temperature s t then lineTextAt s .cpu_temperature ++ "\n" else "")
  ++ (bif breachesKind .gpu_temperature s t then lineTextAt s .gpu_temperature ++ "\n" else "")
  ++ (bif breachesKind .memory_usage s t then lineTextAt s .memory_usage ++ "\n" else "")
  ++ (bif breachesKind .gpu_memory_usage s t then lineTextAt s .gpu_memory_usage else "")

/-- The Alert of the spec, as a sequence of lines: the alert lines of the
breaching metric kinds, in the order `monitor` emits them. -/
def alertLines (s : Snapshot) (t : Thresholds) : List String :=
  (kindOrder.filter (fun k => breachesKind k s t)).map (lineTextAt s)

/-- What one call of `send_alert` (bot.py lines 93-97) does, observationally:
which `(chat_id, text)` pairs were handed to `bot.send_message`, which error
log lines were written, and whether an exception escaped to the caller. -/
structure DispatchTrace where
  sendCalls : List (ℤ × String)
  logged : List String
  raised : Option String
deriving DecidableEq

/-- `send_alert(message, bot, chat_id)` (bot.py lines 93-97): one
`bot.send_message(chat_id=chat_id, text=message)` inside
`try: ... except Exception as e: logging.error(...)`.  The transport is
modelled as a function from the chat id and text to success or a raised
exception (carrying its message string). -/
def send_alert (message : String) (bot : ℤ → String → Except String Unit)
    (chat_id : ℤ) : DispatchTrace :=
  match bot chat_id message with
  | .ok _ => { sendCalls := [(chat_id, message)], logged := [], raised := none }
  | .error e =>
      { sendCalls := [(chat_id, message)]
        logged := ["Error sending message: " ++ e]
        raised := none }

/-- The evaluate-and-dispatch tail of `monitor` (bot.py lines 137-153) on a
collected snapshot: build `alert_message`, and when it is non-empty (Python
string truthiness) call `send_alert` once with it. -/
def monitorDispatch (s : Snapshot) (t : Thresholds)
    (bot : ℤ → String → Except String Unit) (chat_id : ℤ) : DispatchTrace :=
  if alert_message s t = "" then { sendCalls := [], logged := [], raised := none }
  else send_alert (alert_message s t) bot chat_id

/-! ## Probes (bot.py lines 35-106)

The interaction with the OS and with the external `nvidia-smi` process is
modelled by passing the outcome of each external call as an argument: a
raised Python exception is `Except.error` carrying a tag. -/

/-- Tags for raised Python exceptions in the probe layer. -/
inductive PyErr where
  | indexError
  | raisedErr (msg : String)
deriving DecidableEq

/-- The dictionary returned by `psutil.sensors_temperatures()`: sensor label
to the list of `current` temperatures of its entries. -/
def SensorDict := List (String × List ℚ)

/-- Dictionary lookup, `temps[label]`. -/
def lookupLabel (d : List (String × List ℚ)) (label : String) : Option (List ℚ) :=
  (d.find? (fun p => p.1 = label)).map (fun p => p.2)

/-- `get_cpu_temperature` (bot.py lines 39-45).  The body has no
try/except: if `psutil.sensors_temperatures()` itself raises, that
propagates; if the coretemp entry list is empty, `temps["coretemp"][0]`
raises `IndexError`, which also propagates.  Only the key-absent case is
handled (warn and return `None`). -/
def get_cpu_temperature (sensors : Except PyErr (List (String × List ℚ))) :
    Except PyErr (Option ℚ) :=
  match sensors with
  | .error e => .error e
  | .ok temps =>
      match lookupLabel temps "coretemp" with
      | some [] => .error .indexError
      | some (c :: _) => .ok (some c)
      | none => .ok none

/-- Whitespace as stripped by Python `str.strip()` (the characters relevant
to decoded process output). -/
def isPySpace (c : Char) : Bool :=
  c = ' ' || c = '\n' || c = '\t' || c = '\r'

/-- Python `str.strip()` over the character list: drop whitespace from both
ends. -/
def stripChars (l : List Char) : List Char :=
  ((l.dropWhile isPySpace).reverse.dropWhile isPySpace).reverse

/-- Python `str.split(sep)` for a one-character separator: splits at every
occurrence and keeps empty fields (so splitting the empty text yields one
empty field). -/
def splitOnCharList (sep : Char) : List Char → List (List Char)
  | [] => [[]]
  | c :: rest =>
      if c = sep then [] :: splitOnCharList sep rest
      else
        match splitOnCharList sep rest with
        | t :: ts => (c :: t) :: ts
        | [] => [[c]]

/-- Python `str.replace("  ", " ")`: one left-to-right pass replacing
non-overlapping double blanks with single blanks. -/
def collapseDoubleBlank : List Char → List Char
  | ' ' :: ' ' :: rest => ' ' :: collapseDoubleBlank rest
  | c :: rest => c :: collapseDoubleBlank rest
  | [] => []

/-- Numeric value of a digit list. -/
def digitsVal (l : List Char) : ℕ :=
  l.foldl (fun n c => n * 10 + (c.toNat - 48)) 0

/-- Python `int(s)`: optional surrounding whitespace, optional sign, at
least one digit; anything else raises `ValueError` (modelled as `none`). -/
def parseIntPy (s : String) : Option ℤ :=
  let t := stripChars s.data
  let signAndDigits : ℤ × List Char :=
    match t with
    | '-' :: rest => (-1, rest)
    | '+' :: rest => (1, rest)
    | _ => (1, t)
  if signAndDigits.2 ≠ [] && signAndDigits.2.all Char.isDigit then
    some (signAndDigits.1 * (digitsVal signAndDigits.2 : ℕ))
  else none

/-- `int(tok)` applied to every token, as the list comprehension
`[int(temp) for temp in temperatures]`: the whole list, or `none` when any
token raises `ValueError`. -/
def parseAllInts : List String → Option (List ℤ)
  | [] => some []
  | s :: rest =>
      match parseIntPy s, parseAllInts rest with
      | some v, some vs => some (v :: vs)
      | _, _ => none

/-- `get_gpu_temperature` (bot.py lines 48-65): run `nvidia-smi`, decode
stdout, strip, replace newlines with blanks, replace double blanks with
single blanks, split on blanks, parse each token with `int(...)` and take
the max.  The whole body sits in `try: ... except Exception: return None`,
so a raised error from the subprocess call and any parse failure (including
the empty-output case, where splitting yields one empty token) yield
`None`; the probe itself never raises. -/
def get_gpu_temperature (run : Except PyErr String) : Option ℚ :=
  match run with
  | .error _ => none
  | .ok stdout =>
      let blanked := (stripChars stdout.data).map
        (fun c => if c = '\n' then ' ' else c)
      let toks := (splitOnCharList ' ' (collapseDoubleBlank blanked)).map
        (fun l => String.mk l)
      match parseAllInts toks with
      | none => none
      | some temps => temps.max?.map (fun z => (z : ℚ))

/-- `get_gpu_memory_usage` (bot.py lines 73-90): run `nvidia-smi`, split the
stripped stdout on a comma, parse the first two fields as integers and
return `used / total * 100`.  The body sits in `try: ... except Exception:
return None`: a missing second field (`IndexError`), a parse failure
(`ValueError`) and a zero total (`ZeroDivisionError`) all yield `None`; the
probe itself never raises. -/
def get_gpu_memory_usage (run : Except PyErr String) : Option ℚ :=
  match run with
  | .error _ => none
  | .ok stdout =>
      match (splitOnCharList ',' (stripChars stdout.data)).map
          (fun l => String.mk l) with
      | o0 :: o1 :: _ =>
          match parseIntPy o0, parseIntPy o1 with
          | some used, some total =>
              if total = 0 then none
              else some ((used : ℚ) / (total : ℚ) * 100)
          | _, _ => none
      | _ => none

/-- `get_state` (bot.py lines 100-106): calls the five probes in order and
returns the tuple.  There is no try/except here: an exception raised by
`get_cpu_temperature` propagates and aborts the whole collection, so the
remaining probes never contribute their readings. -/
def get_state (cpu_usage : ℚ) (sensors : Except PyErr (List (String × List ℚ)))
    (gpuTempRun : Except PyErr String) (memory_usage : ℚ)
    (gpuMemRun : Except PyErr String) : Except PyErr Snapshot :=
  match get_cpu_temperature sensors with
  | .error e => .error e
  | .ok cpu_temp =>
      .ok { cpu_usage := cpu_usage
            cpu_temp := cpu_temp
            gpu_temp := get_gpu_temperature gpuTempRun
            memory_usage := memory_usage
            gpu_memory_usage := get_gpu_memory_usage gpuMemRun }

/-- An invocation of `subprocess.run`: the argument vector and the value of
the `timeout` keyword (`none` when the keyword is not passed, in which case
the call waits indefinitely and `TimeoutExpired` is never raised). -/
structure SubprocessCall where
  args : List String
  timeout : Option ℚ
deriving DecidableEq

/-- The `subprocess.run` invocation in `get_gpu_temperature`
(bot.py lines 50-56): only `stdout=subprocess.PIPE` is passed, no
`timeout` keyword. -/
def gpuTemperatureCall : SubprocessCall :=
  { args := ["nvidia-smi", "--query-gpu=temperature.gpu",
             "--format=csv,noheader,nounits"]
    timeout := none }

/-- The `subprocess.run` invocation in `get_gpu_memory_usage`
(bot.py lines 76-83): only `stdout=subprocess.PIPE` is passed, no
`timeout` keyword. -/
def gpuMemoryCall : SubprocessCall :=
  { args := ["nvidia-smi", "--query-gpu=memory.used,memory.total",
             "--format=csv,noheader,nounits"]
    timeout := none }

/-! ## On-demand status report (bot.py lines 109-126) -/

/-- Interpolation of a probe result into an f-string: Python renders `None`
as the text `None`, and a number as its rendering. -/
def interpOpt (x : Option ℚ) : String :=
  match x with
  | some v => pyStr v
  | none => "None"

/-- The `status_message` string built by the `status` handler
(bot.py lines 111-122).  The `cpu_usage` and `memory_usage` interpolations
are unconditional; only `cpu_temp`, `gpu_temp` and `gpu_memory_usage` have
an `is not None` test with a `Not available` branch.  The formatter is
duck-typed, so it is modelled over optional values for all five metrics;
`get_state` always supplies available `cpu_usage` and `memory_usage`. -/
def status_message (cpu_usage cpu_temp gpu_temp memory_usage
    gpu_memory_usage : Option ℚ) : String :=
  "CPU Usage: " ++ interpOpt cpu_usage ++ "%\n"
  ++ (match cpu_temp with
      | some v => "CPU Temperature: " ++ pyStr v ++ "°C\n"
      | none => "CPU Temperature: Not available\n")
  ++ (match gpu_temp with
      | some v => "GPU Temperature: " ++ pyStr v ++ "°C\n"
      | none => "GPU Temperature: Not available\n")
  ++ ("RAM Usage: " ++ interpOpt memory_usage ++ "%\n")
  ++ (match gpu_memory_usage with
      | some v => "VRAM Usage: " ++ pyStr v ++ "%"
      | none => "VRAM Usage: Not available")

/-- The lines of a report, split at newlines (Python `text.split(chr(10))`,
used to observe line structure of produced messages). -/
def reportLines (r : String) : List String :=
  (splitOnCharList '\n' r.data).map (fun l => String.mk l)

/-! ## Helper lemmas -/

/-- Every alert line carries a non-empty literal label, so no alert line is
the empty string. -/
lemma lineTextAt_ne_empty (s : Snapshot) (k : Kind) : lineTextAt s k ≠ "" := by
  cases k <;> simp [lineTextAt, String.ext_iff, String.data_append]

/-- Whatever the transport outcome, `send_alert` hands it exactly the one
requested send. -/
lemma send_alert_sendCalls (m : String) (bot : ℤ → String → Except String Unit)
    (chat_id : ℤ) : (send_alert m bot chat_id).sendCalls = [(chat_id, m)] := by
  cases h : bot chat_id m <;> simp [send_alert, h]

/-- Whatever the transport outcome, `send_alert` returns normally. -/
lemma send_alert_raised (m : String) (bot : ℤ → String → Except String Unit)
    (chat_id : ℤ) : (send_alert m bot chat_id).raised = none := by
  cases h : bot chat_id m <;> simp [send_alert, h]

/-! ## Claims -/

/-- Claim C1, counterexample: the claim says an available Reading with value
v contributes a line if and only if v is strictly greater than its limit.
With thresholds all -1 and an available cpu_temperature reading of exactly
0, the value exceeds the limit (0 > -1) yet the evaluation of `monitor`
produces no line at all: Python truthiness skips the zero value. -/
theorem evalZeroValueEscapesAlert :
    valueOf ⟨-5, some 0, none, -5, none⟩ .cpu_temperature = some 0 ∧
    (0 : ℚ) > limitOf ⟨-1, -1, -1, -1, -1⟩ .cpu_temperature ∧
    alertLines ⟨-5, some 0, none, -5, none⟩ ⟨-1, -1, -1, -1, -1⟩ = [] ∧
    alert_message ⟨-5, some 0, none, -5, none⟩ ⟨-1, -1, -1, -1, -1⟩ = "" := by
  decide

/-- Claim C1, amended: an unavailable Reading contributes no alert line; an
available Reading with nonzero value v contributes a line if and only if
v is strictly greater than its limit; and a snapshot in which all three
possibly-unavailable Readings are unavailable and `cpu_usage` and
`memory_usage` (which `get_state` always supplies) do not exceed their
limits evaluates to an empty Alert, regardless of the thresholds. -/
theorem evalPerKindAmended (s : Snapshot) (t : Thresholds) :
    (∀ k, valueOf s k = none → breachesKind k s t = false) ∧
    (∀ k v, valueOf s k = some v → v ≠ 0 →
      (breachesKind k s t = true ↔ limitOf t k < v)) ∧
    (s.cpu_temp = none → s.gpu_temp = none → s.gpu_memory_usage = none →
      ¬ t.cpu_usage < s.cpu_usage → ¬ t.memory_usage < s.memory_usage →
      alert_message s t = "" ∧ alertLines s t = []) := by
  refine ⟨?_, ?_, ?_⟩
  · intro k hk
    cases k <;> simp [valueOf] at hk <;> simp [breachesKind, hk]
  · intro k v hk hv
    cases k <;> simp [valueOf] at hk <;>
      simp [breachesKind, limitOf, hk, hv, gt_iff_lt]
  · intro h1 h2 h3 h4 h5
    constructor <;>
      simp [alert_message, alertLines, kindOrder, breachesKind,
        h1, h2, h3, h4, h5, gt_iff_lt]

/-- Claim C1, witness: the amended statement applied to a concrete snapshot
with all optional Readings unavailable and in-range required readings. -/
theorem evalPerKindAmendedInst :
    breachesKind .gpu_temperature ⟨1, none, none, 1, none⟩ ⟨2, 2, 2, 2, 2⟩ = false ∧
    (breachesKind .cpu_usage ⟨3, none, none, 1, none⟩ ⟨2, 2, 2, 2, 2⟩ = true ↔
      limitOf ⟨2, 2, 2, 2, 2⟩ .cpu_usage < 3) ∧
    alert_message ⟨1, none, none, 1, none⟩ ⟨2, 2, 2, 2, 2⟩ = "" :=
  ⟨(evalPerKindAmended ⟨1, none, none, 1, none⟩ ⟨2, 2, 2, 2, 2⟩).1
      .gpu_temperature rfl,
   (evalPerKindAmended ⟨3, none, none, 1, none⟩ ⟨2, 2, 2, 2, 2⟩).2.1
      .cpu_usage 3 rfl (by decide),
   ((evalPerKindAmended ⟨1, none, none, 1, none⟩ ⟨2, 2, 2, 2, 2⟩).2.2
      rfl rfl rfl (by decide) (by decide)).1⟩

/-- Claim C2, counterexample: the claim says a value one unit above the
threshold always produces an alert line.  With a cpu_temperature threshold
of -1, the value 0 is one unit above the threshold, yet produces no line:
Python truthiness skips the zero value. -/
theorem boundaryZeroOneAboveNoAlert :
    limitOf ⟨100, -1, 100, 100, 100⟩ .cpu_temperature + 1 = 0 ∧
    valueOf ⟨50, some 0, none, 50, none⟩ .cpu_temperature = some 0 ∧
    breachesKind .cpu_temperature ⟨50, some 0, none, 50, none⟩
      ⟨100, -1, 100, 100, 100⟩ = false ∧
    alertLines ⟨50, some 0, none, 50, none⟩ ⟨100, -1, 100, 100, 100⟩ = [] := by
  refine ⟨by norm_num [limitOf], by decide, by decide, by decide⟩

/-- Claim C2, amended: for every metric kind an available Reading whose
value is exactly equal to the threshold produces no alert line (strict
greater-than only), and an available Reading one unit above the threshold
produces an alert line provided that value is nonzero (a value of exactly 0
for cpu_temperature, gpu_temperature or gpu_memory_usage never alerts). -/
theorem boundaryPolicyAmended (k : Kind) (s : Snapshot) (t : Thresholds) (v : ℚ)
    (hv : valueOf s k = some v) :
    (v = limitOf t k → breachesKind k s t = false) ∧
    (v = limitOf t k + 1 → v ≠ 0 → breachesKind k s t = true) := by
  cases k <;> simp [valueOf] at hv <;>
    constructor <;> intro h <;>
      simp_all [breachesKind, limitOf, gt_iff_lt, lt_add_one]

/-- Claim C2, witness: the amended statement applied at the boundary for a
concrete cpu_usage reading equal to its threshold. -/
theorem boundaryPolicyAmendedInst :
    breachesKind .cpu_usage ⟨5, none, none, 5, none⟩ ⟨5, 9, 9, 9, 9⟩ = false :=
  (boundaryPolicyAmended .cpu_usage ⟨5, none, none, 5, none⟩ ⟨5, 9, 9, 9, 9⟩
    5 rfl).1 rfl

/-- Claim C3, confirmed: the alert message `monitor` builds is exactly the
concatenation, over the fixed kind order cpu_usage, cpu_temperature,
gpu_temperature, memory_usage, gpu_memory_usage, of the chunks of the
breaching kinds, and the Alert lines are that same ordered filter — so
whatever subset breaches, its lines appear in the fixed order. -/
theorem alertLinesFixedOrder (s : Snapshot) (t : Thresholds) :
    alert_message s t
      = String.join ((kindOrder.filter (fun k => breachesKind k s t)).map (pieceAt s)) ∧
    alertLines s t
      = (kindOrder.filter (fun k => breachesKind k s t)).map (lineTextAt s) := by
  refine ⟨?_, rfl⟩
  cases h1 : breachesKind .cpu_usage s t <;>
  cases h2 : breachesKind .cpu_temperature s t <;>
  cases h3 : breachesKind .gpu_temperature s t <;>
  cases h4 : breachesKind .memory_usage s t <;>
  cases h5 : breachesKind .gpu_memory_usage s t <;>
    simp [alert_message, kindOrder, pieceAt, h1, h2, h3, h4, h5, String.join,
      String.append_assoc, String.append_empty, String.empty_append]

/-- Claim C4, confirmed: for the snapshot cpu_usage 95, cpu_temperature
unavailable, gpu_temperature 70, memory_usage 40, gpu_memory_usage
unavailable, and thresholds 80/75/75/90/90, the evaluation produces exactly
the single line saying high CPU usage 95 percent. -/
theorem scenarioHighCpuOnly :
    alertLines ⟨95, none, some 70, 40, none⟩ ⟨80, 75, 75, 90, 90⟩
      = ["High CPU usage detected: 95%"] ∧
    alert_message ⟨95, none, some 70, 40, none⟩ ⟨80, 75, 75, 90, 90⟩
      = "High CPU usage detected: 95%\n" := by
  decide

/-- Claim C5, counterexample: the claim says the message body sent is the
newline-join of the Alert lines.  In a cycle where only cpu_usage breaches,
the transport receives the line followed by a trailing newline, which is
not equal to the newline-join of the single-line Alert. -/
theorem dispatchTrailingNewline :
    (monitorDispatch ⟨95, none, none, 50, none⟩ ⟨80, 100, 100, 100, 100⟩
        (fun _ _ => .ok ()) 3).sendCalls
      = [(3, "High CPU usage detected: 95%\n")] ∧
    alertLines ⟨95, none, none, 50, none⟩ ⟨80, 100, 100, 100, 100⟩
      = ["High CPU usage detected: 95%"] ∧
    String.intercalate "\n"
        (alertLines ⟨95, none, none, 50, none⟩ ⟨80, 100, 100, 100, 100⟩)
      = "High CPU usage detected: 95%" ∧
    "High CPU usage detected: 95%\n" ≠ "High CPU usage detected: 95%" := by
  refine ⟨by rfl, by decide, by decide, by decide⟩

/-- Claim C5, amended: in every cycle the send capability is invoked exactly
once when the produced Alert is non-empty and zero times when it is empty,
and the message body sent is the Alert lines joined newline-separated when
the gpu_memory_usage line is present, and that join followed by one
trailing newline otherwise. -/
theorem dispatchOnceMessageShape (s : Snapshot) (t : Thresholds)
    (bot : ℤ → String → Except String Unit) (chat_id : ℤ) :
    ((monitorDispatch s t bot chat_id).sendCalls
      = if alert_message s t = "" then [] else [(chat_id, alert_message s t)]) ∧
    (alert_message s t = "" ↔ alertLines s t = []) ∧
    (breachesKind .gpu_memory_usage s t = true →
      alert_message s t = String.intercalate "\n" (alertLines s t)) ∧
    (alertLines s t ≠ [] → breachesKind .gpu_memory_usage s t = false →
      alert_message s t = String.intercalate "\n" (alertLines s t) ++ "\n") := by
  have hcall : (monitorDispatch s t bot chat_id).sendCalls
      = if alert_message s t = "" then [] else [(chat_id, alert_message s t)] := by
    by_cases h : alert_message s t = ""
    · simp [monitorDispatch, h]
    · simp [monitorDispatch, h, send_alert_sendCalls]
  refine ⟨hcall, ?_⟩
  have hne := lineTextAt_ne_empty s
  cases h1 : breachesKind .cpu_usage s t <;>
  cases h2 : breachesKind .cpu_temperature s t <;>
  cases h3 : breachesKind .gpu_temperature s t <;>
  cases h4 : breachesKind .memory_usage s t <;>
  cases h5 : breachesKind .gpu_memory_usage s t <;>
    simp [alert_message, alertLines, kindOrder, h1, h2, h3, h4, h5,
      String.intercalate, String.intercalate.go, hne,
      String.ext_iff, String.data_append]

/-- Claim C5, witness: the amended statement applied to a concrete cycle
where cpu_usage breaches and gpu_memory_usage does not. -/
theorem dispatchOnceMessageShapeInst :
    alert_message ⟨99, none, none, 10, none⟩ ⟨90, 90, 90, 90, 90⟩
      = String.intercalate "\n"
          (alertLines ⟨99, none, none, 10, none⟩ ⟨90, 90, 90, 90, 90⟩) ++ "\n" :=
  (dispatchOnceMessageShape ⟨99, none, none, 10, none⟩ ⟨90, 90, 90, 90, 90⟩
      (fun _ _ => .ok ()) 3).2.2.2 (by decide) (by decide)

/-- Claim C6, confirmed: for every message and destination, `send_alert`
hands the transport exactly one send, a transport failure is caught and
logged rather than propagated, and within one `monitor` cycle the transport
is invoked at most once and no exception escapes the dispatch. -/
theorem sendAlertNeverRaisesSingleCall (message : String)
    (bot : ℤ → String → Except String Unit) (chat_id : ℤ) :
    (send_alert message bot chat_id).raised = none ∧
    (send_alert message bot chat_id).sendCalls = [(chat_id, message)] ∧
    (∀ e, bot chat_id message = .error e →
      (send_alert message bot chat_id).logged = ["Error sending message: " ++ e]) ∧
    (∀ s t, (monitorDispatch s t bot chat_id).sendCalls.length ≤ 1 ∧
      (monitorDispatch s t bot chat_id).raised = none) := by
  refine ⟨?_, ?_, ?_, ?_⟩
  · cases h : bot chat_id message <;> simp [send_alert, h]
  · cases h : bot chat_id message <;> simp [send_alert, h]
  · intro e he
    simp [send_alert, he]
  · intro s t
    by_cases hm : alert_message s t = ""
    · simp [monitorDispatch, hm]
    · simp [monitorDispatch, hm, send_alert_sendCalls, send_alert_raised]

/-- Claim C6, witness: a transport that fails is caught and its error
message logged. -/
theorem sendAlertNeverRaisesSingleCallInst :
    (send_alert "m" (fun _ _ => .error "boom") 1).logged
      = ["Error sending message: " ++ "boom"] :=
  (sendAlertNeverRaisesSingleCall "m" (fun _ _ => .error "boom") 1).2.2.1
    "boom" rfl

/-- Claim C7, code bug: `get_cpu_temperature` has no try/except, so when
the sensors dictionary holds a coretemp entry with an empty list the probe
raises IndexError instead of returning an unavailable Reading, and the
exception propagates through `get_state`, aborting collection of the
remaining metrics even though the GPU probes (whose bodies are fully
guarded and never raise) would have succeeded. -/
theorem cpuTemperatureProbeRaises :
    get_cpu_temperature (.ok [("coretemp", [])]) = .error .indexError ∧
    get_state 12 (.ok [("coretemp", [])]) (.ok "40") 34 (.ok "idle")
      = .error .indexError ∧
    get_gpu_temperature (.ok "40") = some 40 ∧
    get_gpu_temperature (.error (.raisedErr "FileNotFoundError")) = none ∧
    get_gpu_memory_usage (.error (.raisedErr "FileNotFoundError")) = none :=
  ⟨rfl, rfl, by decide, rfl, rfl⟩

/-- Claim C8, code bug: both GPU probe subprocess invocations pass no
timeout keyword, so the external call is not time-bounded; and the
degraded-output path that does exist treats empty probe output as an
unavailable Reading. -/
theorem gpuProbeCallsUnbounded :
    gpuTemperatureCall.timeout = none ∧
    gpuMemoryCall.timeout = none ∧
    get_gpu_temperature (.ok "") = none ∧
    get_gpu_memory_usage (.ok "") = none :=
  ⟨rfl, rfl, by decide, by decide⟩

/-- Claim C9, counterexample: the claim says an unavailable reading of any
kind, including cpu_usage, is rendered with the not-available marker.  The
formatter interpolates `cpu_usage` unconditionally: fed an unavailable
cpu_usage it renders the raw interpolation, not the marker. -/
theorem statusUnavailableCpuRaw :
    status_message none (some 50) (some 60) (some 40) (some 10)
      = "CPU Usage: None%\nCPU Temperature: 50°C\nGPU Temperature: 60°C\nRAM Usage: 40%\nVRAM Usage: 10%" ∧
    reportLines (status_message none (some 50) (some 60) (some 40) (some 10))
      = ["CPU Usage: None%", "CPU Temperature: 50°C", "GPU Temperature: 60°C",
         "RAM Usage: 40%", "VRAM Usage: 10%"] ∧
    "CPU Usage: None%" ≠ "CPU Usage: Not available" := by
  decide

/-- Claim C9, amended: for every collected snapshot (whose cpu_usage and
memory_usage are always available) the status report is exactly five lines
in fixed order, one per metric kind: the cpu_temperature, gpu_temperature
and gpu_memory_usage lines show the value when available and the explicit
Not available marker otherwise, while the cpu_usage and memory_usage lines
always show the raw value (the formatter has no marker branch for them). -/
theorem statusReportShape (cu mu : ℚ) (ct gt gm : Option ℚ) :
    status_message (some cu) ct gt (some mu) gm
      = String.intercalate "\n"
          ["CPU Usage: " ++ pyStr cu ++ "%",
           (match ct with
            | some v => "CPU Temperature: " ++ pyStr v ++ "°C"
            | none => "CPU Temperature: Not available"),
           (match gt with
            | some v => "GPU Temperature: " ++ pyStr v ++ "°C"
            | none => "GPU Temperature: Not available"),
           "RAM Usage: " ++ pyStr mu ++ "%",
           (match gm with
            | some v => "VRAM Usage: " ++ pyStr v ++ "%"
            | none => "VRAM Usage: Not available")] := by
  cases ct <;> cases gt <;> cases gm <;>
    simp [status_message, interpOpt, String.intercalate, String.intercalate.go,
      String.ext_iff, String.data_append]

/-- Claim C10, confirmed: for every thresholds mapping, an available Reading
whose value is exactly 0 for cpu_temperature, gpu_temperature or
gpu_memory_usage never breaches, even when 0 is strictly greater than the
configured limit: the availability test is a truthiness test on the
value. -/
theorem zeroReadingNeverAlerts (s : Snapshot) (t : Thresholds) :
    (s.cpu_temp = some 0 → breachesKind .cpu_temperature s t = false) ∧
    (s.gpu_temp = some 0 → breachesKind .gpu_temperature s t = false) ∧
    (s.gpu_memory_usage = some 0 → breachesKind .gpu_memory_usage s t = false) := by
  refine ⟨?_, ?_, ?_⟩ <;> intro h <;> simp [breachesKind, h]

/-- Claim C10, witness: zero readings against negative limits (where zero
strictly exceeds the limit) still produce no breach. -/
theorem zeroReadingNeverAlertsInst :
    breachesKind .cpu_temperature ⟨1, some 0, some 0, 1, some 0⟩
      ⟨-1, -1, -1, -1, -1⟩ = false ∧
    breachesKind .gpu_temperature ⟨1, some 0, some 0, 1, some 0⟩
      ⟨-1, -1, -1, -1, -1⟩ = false :=
  ⟨(zeroReadingNeverAlerts ⟨1, some 0, some 0, 1, some 0⟩
      ⟨-1, -1, -1, -1, -1⟩).1 rfl,
   (zeroReadingNeverAlerts ⟨1, some 0, some 0, 1, some 0⟩
      ⟨-1, -1, -1, -1, -1⟩).2.1 rfl⟩

end Bot
